import Mathlib

/-!
Verification of the RAHL APK builder backend: a shallow embedding of
`src/backend/app.py` (intent classifier, scaffolding engine, build-job
orchestrator, record store, HTTP-facing operations) and
`src/backend/build.py` (the Gradle build invoker), with theorems settling
the specification claims about them.

Conventions of the embedding:
- Python strings are Lean `String` / `List Char`; `str.lower()` is the
  per-character ASCII `Char.toLower` map, matching Python on the ASCII
  descriptions and keyword tables involved.
- The file system and the project-record store are modelled as maps
  `String → Option String` / `String → Option Meta`; a file write is an
  overwriting insert.  `os.path.join` is `++` with `"/"` separators.
- The background thread of `build_project_thread` is modelled as a function
  from an explicit failure point (`Option (Fin 5)`, the index of the first
  I/O operation to raise) to the final state together with the list of
  record values committed to storage, in order.
- `build.py`'s process-global working directory is modelled by a state
  monad `OsM` over the cwd, with `try/except/finally` as an explicit
  combinator; the Gradle subprocess is an input (`GradleBehavior`).
-/

set_option maxHeartbeats 1000000

/-! ## Character and string helpers (Python semantics) -/

/-- Python `str.isspace` on the ASCII whitespace characters. -/
def pyIsSpace (c : Char) : Bool :=
  c = ' ' || c = '\t' || c = '\n' || c = '\x0b' || c = '\x0c' || c = '\r'

/-- `leadsWith sub l` : `sub` is an initial segment of `l`. -/
def leadsWith : List Char → List Char → Bool
  | [], _ => true
  | _ :: _, [] => false
  | c :: cs, d :: ds => c == d && leadsWith cs ds

/-- Python substring membership `sub in hay`. -/
def lcContains : List Char → List Char → Bool
  | [], sub => leadsWith sub []
  | c :: t, sub => leadsWith sub (c :: t) || lcContains t sub

/-- Python `str.lower()` (ASCII). -/
def lcLower (l : List Char) : List Char := l.map Char.toLower

/-- Python `str.replace(' ', '_')` (single-character pattern). -/
def lcReplaceSpace (l : List Char) : List Char :=
  l.map (fun c => if c = ' ' then '_' else c)

/-- Worker for Python `str.split()` (split on whitespace runs, drop empties);
`acc` holds the current token, reversed. -/
def splitWsAux : List Char → List Char → List (List Char)
  | [], acc => if acc.isEmpty then [] else [acc.reverse]
  | c :: cs, acc =>
    if pyIsSpace c then
      (if acc.isEmpty then splitWsAux cs [] else acc.reverse :: splitWsAux cs [])
    else splitWsAux cs (c :: acc)

/-- Python `str.split()` with no arguments. -/
def splitWs (l : List Char) : List (List Char) := splitWsAux l []

/-- Python `'.'.join(words)`. -/
def joinDots : List (List Char) → List Char
  | [] => []
  | [t] => t
  | t :: ts => t ++ '.' :: joinDots ts

/-- Python `str.strip()`. -/
def pyStrip (s : String) : String :=
  ⟨((s.data.dropWhile pyIsSpace).reverse.dropWhile pyIsSpace).reverse⟩

/-- Python list slice `l[-n:]`. -/
def takeLast {α : Type} (n : Nat) (l : List α) : List α := l.drop (l.length - n)

/-- `s.startswith(pre)`, by comparing the leading characters. -/
def beginsWith (s pre : String) : Bool := s.data.take pre.data.length == pre.data

/-! ## Intent classifier (`RahlAIBuilder.analyze_description`) -/

/-- The keyword table of `analyze_description`, in source (priority) order. -/
def keywordCatalog : List (String × List String) :=
  [("calculator", ["calculator", "calculate", "math", "arithmetic", "add", "subtract"]),
   ("webview", ["website", "web", "http", "blog", "site", "browser"]),
   ("todo", ["todo", "to-do", "task", "checklist", "reminder", "schedule"]),
   ("notes", ["note", "notepad", "write", "journal", "diary"]),
   ("weather", ["weather", "forecast", "temperature", "climate"]),
   ("game", ["game", "play", "fun", "entertain", "tic-tac-toe", "puzzle"])]

/-- Entry of the keyword table at position `i` (out of range: harmless default). -/
def catEntry (i : Nat) : String × List String := keywordCatalog.getD i ("", [])

/-- Does any keyword of `kws` occur in the lowered description `dl`? -/
def hasHit (dl : List Char) (kws : List String) : Bool :=
  kws.any (fun kw => lcContains dl kw.data)

/-- The `app_type` loop of `analyze_description`: start from the `'webview'`
default and overwrite it for every table entry with a keyword hit (the inner
`break` of the source only leaves the keyword loop, so later entries
overwrite earlier ones). -/
def appTypeOf (dl : List Char) : String :=
  keywordCatalog.foldl (fun acc p => if hasHit dl p.2 then p.1 else acc) "webview"

/-- The feature keyword sets of `analyze_description`, in source order; a
feature is appended when any of its keywords occurs. -/
def featureTable : List (String × List String) :=
  [("dark_mode", ["dark", "dark mode"]),
   ("notifications", ["notification"]),
   ("database", ["database", "store", "save"]),
   ("sharing", ["share"]),
   ("authentication", ["login", "sign in"])]

/-- The feature-extraction block of `analyze_description`. -/
def extractFeatures (dl : List Char) : List String :=
  (featureTable.filter (fun p => hasHit dl p.2)).map Prod.fst

/-- `f"com.rahl.{'.'.join(words)}"` for `words = description_lower.split()[:3]`. -/
def basePkg (dl : List Char) : List Char :=
  "com.rahl.".data ++ joinDots ((splitWs dl).take 3)

/-- The package-name derivation of `analyze_description`:
`f"com.rahl.{'.'.join(words)}".replace(' ', '_').lower()[:50]`. -/
def pkgNameOf (dl : List Char) : String :=
  ⟨(lcLower (lcReplaceSpace (basePkg dl))).take 50⟩

/-- The dictionary returned by `analyze_description`. -/
structure Analysis where
  app_type : String
  features : List String
  package_name : String
  detected_features : Nat
deriving DecidableEq

/-- `RahlAIBuilder.analyze_description`. -/
def analyze_description (d : String) : Analysis :=
  let dl := lcLower d.data
  { app_type := appTypeOf dl
    features := extractFeatures dl
    package_name := pkgNameOf dl
    detected_features := (extractFeatures dl).length }


/-! ## Scaffolding engine (`RahlAIBuilder.generate_android_project`)

The template payloads below are the literal file contents written by
`generate_manifest`, `generate_main_activity`, `generate_layouts`,
`generate_build_gradle`, `generate_strings` and `create_dummy_apk`, with the
source's f-string / `%` substitutions made explicit as string concatenation.
-/

def manifestText (package_name : String) : String :=
  "<?xml version=\"1.0\" encoding=\"utf-8\"?>\n<manifest xmlns:android=\"http://schemas.android.com/apk/res/android\"\n    package=\"" ++ package_name ++ "\">\n    \n    <uses-permission android:name=\"android.permission.INTERNET\" />\n    \n    <application\n        android:allowBackup=\"true\"\n        android:icon=\"@mipmap/ic_launcher\"\n        android:label=\"@string/app_name\"\n        android:roundIcon=\"@mipmap/ic_launcher_round\"\n        android:supportsRtl=\"true\"\n        android:theme=\"@style/Theme.RahlApp\">\n        \n        <activity\n            android:name=\".MainActivity\"\n            android:exported=\"true\">\n            <intent-filter>\n                <action android:name=\"android.intent.action.MAIN\" />\n                <category android:name=\"android.intent.category.LAUNCHER\" />\n            </intent-filter>\n        </activity>\n    </application>\n</manifest>"

def calcActivityText (package_name : String) : String :=
  "package " ++ package_name ++ ";\n\nimport android.os.Bundle;\nimport android.view.View;\nimport android.widget.Button;\nimport android.widget.TextView;\nimport androidx.appcompat.app.AppCompatActivity;\n\npublic class MainActivity extends AppCompatActivity \x7b\n    \n    private TextView display;\n    private String currentNumber = \"\";\n    private String operation = \"\";\n    private double firstNumber = 0;\n    \n    @Override\n    protected void onCreate(Bundle savedInstanceState) \x7b\n        super.onCreate(savedInstanceState);\n        setContentView(R.layout.activity_main);\n        \n        display = findViewById(R.id.display);\n        \n        // Number buttons\n        int[] numberButtons = \x7b\n            R.id.btn_0, R.id.btn_1, R.id.btn_2, R.id.btn_3, R.id.btn_4,\n            R.id.btn_5, R.id.btn_6, R.id.btn_7, R.id.btn_8, R.id.btn_9\n        \x7d;\n        \n        for (int id : numberButtons) \x7b\n            findViewById(id).setOnClickListener(v -> \x7b\n                Button btn = (Button) v;\n                currentNumber += btn.getText().toString();\n                display.setText(currentNumber);\n            \x7d);\n        \x7d\n        \n        // Operation buttons\n        findViewById(R.id.btn_add).setOnClickListener(v -> performOperation(\"+\"));\n        findViewById(R.id.btn_subtract).setOnClickListener(v -> performOperation(\"-\"));\n        findViewById(R.id.btn_multiply).setOnClickListener(v -> performOperation(\"*\"));\n        findViewById(R.id.btn_divide).setOnClickListener(v -> performOperation(\"/\"));\n        \n        findViewById(R.id.btn_equals).setOnClickListener(v -> calculateResult());\n        findViewById(R.id.btn_clear).setOnClickListener(v -> clearAll());\n    \x7d\n    \n    private void performOperation(String op) \x7b\n        if (!currentNumber.isEmpty()) \x7b\n            firstNumber = Double.parseDouble(currentNumber);\n            operation = op;\n            currentNumber = \"\";\n            display.setText(op);\n        \x7d\n    \x7d\n    \n    private void calculateResult() \x7b\n        if (!currentNumber.isEmpty() && !operation.isEmpty()) \x7b\n            double secondNumber = Double.parseDouble(currentNumber);\n            double result = 0;\n            \n            switch (operation) \x7b\n                case \"+\": result = firstNumber + secondNumber; break;\n                case \"-\": result = firstNumber - secondNumber; break;\n                case \"*\": result = firstNumber * secondNumber; break;\n                case \"/\": result = firstNumber / secondNumber; break;\n            \x7d\n            \n            display.setText(String.valueOf(result));\n            currentNumber = String.valueOf(result);\n            operation = \"\";\n        \x7d\n    \x7d\n    \n    private void clearAll() \x7b\n        currentNumber = \"\";\n        operation = \"\";\n        firstNumber = 0;\n        display.setText(\"0\");\n    \x7d\n\x7d"

def webviewActivityText (package_name : String) : String :=
  "package " ++ package_name ++ ";\n\nimport android.os.Bundle;\nimport android.webkit.WebView;\nimport android.webkit.WebViewClient;\nimport androidx.appcompat.app.AppCompatActivity;\n\npublic class MainActivity extends AppCompatActivity \x7b\n    \n    private WebView webView;\n    \n    @Override\n    protected void onCreate(Bundle savedInstanceState) \x7b\n        super.onCreate(savedInstanceState);\n        setContentView(R.layout.activity_main);\n        \n        webView = findViewById(R.id.webview);\n        webView.setWebViewClient(new WebViewClient());\n        webView.getSettings().setJavaScriptEnabled(true);\n        webView.loadUrl(\"https://github.com\");\n    \x7d\n    \n    @Override\n    public void onBackPressed() \x7b\n        if (webView.canGoBack()) \x7b\n            webView.goBack();\n        \x7d else \x7b\n            super.onBackPressed();\n        \x7d\n    \x7d\n\x7d"

def todoActivityText (package_name : String) : String :=
  "package " ++ package_name ++ ";\n\nimport android.os.Bundle;\nimport android.view.View;\nimport android.widget.Button;\nimport android.widget.EditText;\nimport android.widget.ListView;\nimport androidx.appcompat.app.AppCompatActivity;\nimport java.util.ArrayList;\nimport java.util.List;\n\npublic class MainActivity extends AppCompatActivity \x7b\n    \n    private List<String> todoItems;\n    private TodoAdapter adapter;\n    private EditText inputField;\n    \n    @Override\n    protected void onCreate(Bundle savedInstanceState) \x7b\n        super.onCreate(savedInstanceState);\n        setContentView(R.layout.activity_main);\n        \n        todoItems = new ArrayList<>();\n        adapter = new TodoAdapter(this, todoItems);\n        \n        ListView listView = findViewById(R.id.todo_list);\n        listView.setAdapter(adapter);\n        \n        inputField = findViewById(R.id.todo_input);\n        Button addButton = findViewById(R.id.btn_add);\n        \n        addButton.setOnClickListener(v -> \x7b\n            String newItem = inputField.getText().toString().trim();\n            if (!newItem.isEmpty()) \x7b\n                todoItems.add(newItem);\n                adapter.notifyDataSetChanged();\n                inputField.setText(\"\");\n            \x7d\n        \x7d);\n        \n        listView.setOnItemClickListener((parent, view, position, id) -> \x7b\n            todoItems.remove(position);\n            adapter.notifyDataSetChanged();\n        \x7d);\n    \x7d\n\x7d\n\nclass TodoAdapter extends android.widget.ArrayAdapter<String> \x7b\n    \n    public TodoAdapter(MainActivity context, List<String> items) \x7b\n        super(context, android.R.layout.simple_list_item_1, items);\n    \x7d\n\x7d"

def defaultActivityText (package_name : String) (app_type : String) : String :=
  "package " ++ package_name ++ ";\n\nimport android.os.Bundle;\nimport android.widget.TextView;\nimport androidx.appcompat.app.AppCompatActivity;\n\npublic class MainActivity extends AppCompatActivity \x7b\n    \n    @Override\n    protected void onCreate(Bundle savedInstanceState) \x7b\n        super.onCreate(savedInstanceState);\n        setContentView(R.layout.activity_main);\n        \n        TextView textView = findViewById(R.id.textView);\n        textView.setText(\"Welcome to your " ++ app_type ++ " app!\");\n        \n        // Add feature-specific code\n        if (android.os.Build.VERSION.SDK_INT >= android.os.Build.VERSION_CODES.O) \x7b\n            // Dark mode support\n            getDelegate().setLocalNightMode(\n                android.content.res.Configuration.UI_MODE_NIGHT_YES);\n        \x7d\n    \x7d\n\x7d"

def calcLayoutText : String :=
  "<?xml version=\"1.0\" encoding=\"utf-8\"?>\n<LinearLayout xmlns:android=\"http://schemas.android.com/apk/res/android\"\n    android:layout_width=\"match_parent\"\n    android:layout_height=\"match_parent\"\n    android:orientation=\"vertical\"\n    android:padding=\"16dp\">\n    \n    <TextView\n        android:id=\"@+id/display\"\n        android:layout_width=\"match_parent\"\n        android:layout_height=\"80dp\"\n        android:text=\"0\"\n        android:textSize=\"32sp\"\n        android:gravity=\"end|center_vertical\"\n        android:background=\"#f0f0f0\"\n        android:padding=\"16dp\" />\n    \n    <GridLayout\n        android:layout_width=\"match_parent\"\n        android:layout_height=\"wrap_content\"\n        android:columnCount=\"4\"\n        android:rowCount=\"5\">\n        \n        <!\x2d\x2d Row 1 \x2d\x2d>\n        <Button android:id=\"@+id/btn_clear\" android:text=\"C\" style=\"@style/CalcButton\" />\n        <Button android:id=\"@+id/btn_divide\" android:text=\"/\" style=\"@style/CalcButton\" />\n        <Button android:id=\"@+id/btn_multiply\" android:text=\"*\" style=\"@style/CalcButton\" />\n        <Button android:id=\"@+id/btn_backspace\" android:text=\"⌫\" style=\"@style/CalcButton\" />\n        \n        <!\x2d\x2d Row 2 \x2d\x2d>\n        <Button android:id=\"@+id/btn_7\" android:text=\"7\" style=\"@style/CalcButton\" />\n        <Button android:id=\"@+id/btn_8\" android:text=\"8\" style=\"@style/CalcButton\" />\n        <Button android:id=\"@+id/btn_9\" android:text=\"9\" style=\"@style/CalcButton\" />\n        <Button android:id=\"@+id/btn_subtract\" android:text=\"-\" style=\"@style/CalcButton\" />\n        \n        <!\x2d\x2d Row 3 \x2d\x2d>\n        <Button android:id=\"@+id/btn_4\" android:text=\"4\" style=\"@style/CalcButton\" />\n        <Button android:id=\"@+id/btn_5\" android:text=\"5\" style=\"@style/CalcButton\" />\n        <Button android:id=\"@+id/btn_6\" android:text=\"6\" style=\"@style/CalcButton\" />\n        <Button android:id=\"@+id/btn_add\" android:text=\"+\" style=\"@style/CalcButton\" />\n        \n        <!\x2d\x2d Row 4 \x2d\x2d>\n        <Button android:id=\"@+id/btn_1\" android:text=\"1\" style=\"@style/CalcButton\" />\n        <Button android:id=\"@+id/btn_2\" android:text=\"2\" style=\"@style/CalcButton\" />\n        <Button android:id=\"@+id/btn_3\" android:text=\"3\" style=\"@style/CalcButton\" />\n        <Button android:id=\"@+id/btn_equals\" android:text=\"=\" \n            android:layout_rowSpan=\"2\" style=\"@style/CalcButton\" />\n        \n        <!\x2d\x2d Row 5 \x2d\x2d>\n        <Button android:id=\"@+id/btn_0\" android:text=\"0\" \n            android:layout_columnSpan=\"2\" style=\"@style/CalcButton\" />\n        <Button android:id=\"@+id/btn_dot\" android:text=\".\" style=\"@style/CalcButton\" />\n        \n    </GridLayout>\n</LinearLayout>"

def stylesText : String :=
  "<?xml version=\"1.0\" encoding=\"utf-8\"?>\n<resources>\n    <style name=\"CalcButton\">\n        <item name=\"android:layout_width\">0dp</item>\n        <item name=\"android:layout_height\">80dp</item>\n        <item name=\"android:layout_columnWeight\">1</item>\n        <item name=\"android:layout_rowWeight\">1</item>\n        <item name=\"android:textSize\">24sp</item>\n        <item name=\"android:backgroundTint\">#6200EE</item>\n        <item name=\"android:textColor\">#FFFFFF</item>\n    </style>\n</resources>"

def webviewLayoutText : String :=
  "<?xml version=\"1.0\" encoding=\"utf-8\"?>\n<LinearLayout xmlns:android=\"http://schemas.android.com/apk/res/android\"\n    android:layout_width=\"match_parent\"\n    android:layout_height=\"match_parent\"\n    android:orientation=\"vertical\">\n    \n    <WebView\n        android:id=\"@+id/webview\"\n        android:layout_width=\"match_parent\"\n        android:layout_height=\"match_parent\" />\n    \n</LinearLayout>"

def todoLayoutText : String :=
  "<?xml version=\"1.0\" encoding=\"utf-8\"?>\n<LinearLayout xmlns:android=\"http://schemas.android.com/apk/res/android\"\n    android:layout_width=\"match_parent\"\n    android:layout_height=\"match_parent\"\n    android:orientation=\"vertical\"\n    android:padding=\"16dp\">\n    \n    <TextView\n        android:layout_width=\"match_parent\"\n        android:layout_height=\"wrap_content\"\n        android:text=\"Todo List\"\n        android:textSize=\"24sp\"\n        android:textStyle=\"bold\"\n        android:gravity=\"center\"\n        android:padding=\"16dp\" />\n    \n    <LinearLayout\n        android:layout_width=\"match_parent\"\n        android:layout_height=\"wrap_content\"\n        android:orientation=\"horizontal\">\n        \n        <EditText\n            android:id=\"@+id/todo_input\"\n            android:layout_width=\"0dp\"\n            android:layout_height=\"wrap_content\"\n            android:layout_weight=\"1\"\n            android:hint=\"Enter todo item\"\n            android:padding=\"12dp\" />\n        \n        <Button\n            android:id=\"@+id/btn_add\"\n            android:layout_width=\"wrap_content\"\n            android:layout_height=\"wrap_content\"\n            android:text=\"Add\"\n            android:padding=\"12dp\" />\n    </LinearLayout>\n    \n    <ListView\n        android:id=\"@+id/todo_list\"\n        android:layout_width=\"match_parent\"\n        android:layout_height=\"match_parent\"\n        android:padding=\"8dp\" />\n    \n</LinearLayout>"

def defaultLayoutText : String :=
  "<?xml version=\"1.0\" encoding=\"utf-8\"?>\n<LinearLayout xmlns:android=\"http://schemas.android.com/apk/res/android\"\n    android:layout_width=\"match_parent\"\n    android:layout_height=\"match_parent\"\n    android:orientation=\"vertical\"\n    android:gravity=\"center\"\n    android:padding=\"24dp\">\n    \n    <TextView\n        android:id=\"@+id/textView\"\n        android:layout_width=\"wrap_content\"\n        android:layout_height=\"wrap_content\"\n        android:text=\"Hello Rahl AI!\"\n        android:textSize=\"24sp\"\n        android:textStyle=\"bold\" />\n    \n    <TextView\n        android:layout_width=\"wrap_content\"\n        android:layout_height=\"wrap_content\"\n        android:text=\"Your app is ready!\"\n        android:textSize=\"18sp\"\n        android:layout_marginTop=\"16dp\" />\n    \n</LinearLayout>"

def appGradleText (package_name : String) : String :=
  "plugins \x7b\n    id \x27com.android.application\x27\n\x7d\n\nandroid \x7b\n    namespace \x27" ++ package_name ++ "\x27\n    compileSdk 34\n    \n    defaultConfig \x7b\n        applicationId \"" ++ package_name ++ "\"\n        minSdk 21\n        targetSdk 34\n        versionCode 1\n        versionName \"1.0\"\n    \x7d\n    \n    buildTypes \x7b\n        release \x7b\n            minifyEnabled false\n            proguardFiles getDefaultProguardFile(\x27proguard-android-optimize.txt\x27), \x27proguard-rules.pro\x27\n        \x7d\n    \x7d\n    \n    compileOptions \x7b\n        sourceCompatibility JavaVersion.VERSION_1_8\n        targetCompatibility JavaVersion.VERSION_1_8\n    \x7d\n\x7d\n\ndependencies \x7b\n    implementation \x27androidx.appcompat:appcompat:1.6.1\x27\n    implementation \x27com.google.android.material:material:1.10.0\x27\n    implementation \x27androidx.constraintlayout:constraintlayout:2.1.4\x27\n\x7d"

def projectGradleText : String :=
  "plugins \x7b\n    id \x27com.android.application\x27 version \x278.1.0\x27 apply false\n\x7d"

def settingsGradleText : String :=
  "pluginManagement \x7b\n    repositories \x7b\n        google()\n        mavenCentral()\n        gradlePluginPortal()\n    \x7d\n\x7d\ndependencyResolutionManagement \x7b\n    repositoriesMode.set(RepositoriesMode.FAIL_ON_PROJECT_REPOS)\n    repositories \x7b\n        google()\n        mavenCentral()\n    \x7d\n\x7d\nrootProject.name = \"RahlApp\"\ninclude \x27:app\x27"

def gradlePropsText : String :=
  "org.gradle.jvmargs=-Xmx2048m -Dfile.encoding=UTF-8\nandroid.useAndroidX=true\nandroid.enableJetifier=true"

def stringsText (app_name : String) : String :=
  "<?xml version=\"1.0\" encoding=\"utf-8\"?>\n<resources>\n    <string name=\"app_name\">" ++ app_name ++ "</string>\n    <string name=\"hello_world\">Hello from Rahl AI!</string>\n</resources>"

def dummyApkText : String :=
  "Rahl AI - Generated APK\n========================\nThis is a demo APK generated by Rahl AI Builder.\n\nFor a real APK, you need to:\n1. Install Android SDK\n2. Set up Gradle\n3. Build with: ./gradlew assembleDebug\n\nBut for this demo, we\x27re showing the process!\n\nYour app has been successfully analyzed and the code generated.\n\nCheck the project folder for complete Android source code."

/-- Branch selection of `generate_main_activity`. -/
def mainActivityText (package_name app_type : String) : String :=
  if app_type = "calculator" then calcActivityText package_name
  else if app_type = "webview" then webviewActivityText package_name
  else if app_type = "todo" then todoActivityText package_name
  else defaultActivityText package_name app_type

/-- Branch selection of `generate_layouts` for `activity_main.xml`. -/
def layoutText (app_type : String) : String :=
  if app_type = "calculator" then calcLayoutText
  else if app_type = "webview" then webviewLayoutText
  else if app_type = "todo" then todoLayoutText
  else defaultLayoutText

/-- The `app_names` lookup of `generate_strings`. -/
def appNameFor (app_type : String) : String :=
  (([("calculator", "Rahl Calculator"), ("webview", "Rahl Browser"),
     ("todo", "Rahl Todo"), ("notes", "Rahl Notes"), ("weather", "Rahl Weather"),
     ("game", "Rahl Game")] : List (String × String)).lookup app_type).getD "Rahl App"

/-- `package_name.replace('.', '/')` of `generate_main_activity`. -/
def dotToSlash (pkg : String) : String :=
  ⟨pkg.data.map (fun c => if c = '.' then '/' else c)⟩

/-- The ordered list of (path, content) file writes performed by
`generate_android_project p app_type package_name features` (directory
creation carries no content and is omitted; `features` is accepted and,
as in the source, never read by any template). -/
def scaffoldWrites (p app_type package_name : String) (features : List String) :
    List (String × String) :=
  [(p ++ "/app/src/main/AndroidManifest.xml", manifestText package_name),
   (p ++ "/app/src/main/java/" ++ dotToSlash package_name ++ "/MainActivity.java",
      mainActivityText package_name app_type)]
  ++ (if app_type = "calculator"
      then [(p ++ "/app/src/main/res/values/styles.xml", stylesText)] else [])
  ++ [(p ++ "/app/src/main/res/layout/activity_main.xml", layoutText app_type),
      (p ++ "/app/build.gradle", appGradleText package_name),
      (p ++ "/build.gradle", projectGradleText),
      (p ++ "/settings.gradle", settingsGradleText),
      (p ++ "/gradle.properties", gradlePropsText),
      (p ++ "/app/src/main/res/values/strings.xml", stringsText (appNameFor app_type)),
      (p ++ "/app/build/outputs/apk/debug/app-debug.apk", dummyApkText)]

/-- The file system: a map from path to file content. -/
def Files : Type := String → Option String

/-- An overwriting file write. -/
def insertFile (k v : String) (f : Files) : Files :=
  fun x => if x = k then some v else f x

/-- Perform a list of file writes in order. -/
def applyWrites (ws : List (String × String)) (f : Files) : Files :=
  ws.foldl (fun g w => insertFile w.1 w.2 g) f

/-! ## Project record store and build-job orchestrator (`src/backend/app.py`) -/

/-- The persisted `metadata.json` record of a project. -/
structure Meta where
  id : String
  app_type : String
  package_name : String
  features : List String
  description : String
  created_at : Nat
  status : String
  progress : Nat
  apk_path : Option String
  error : Option String
deriving DecidableEq

/-- Server-side persistent state: the record store (one `metadata.json` per
project id) and the file system holding generated files. -/
structure Srv where
  records : String → Option Meta
  files : Files

/-- Persist (overwrite) the metadata record of project `pid`. -/
def putRec (pid : String) (m : Meta) (st : Srv) : Srv :=
  { st with records := fun x => if x = pid then some m else st.records x }

/-- The state of a freshly started server: no records, no files. -/
def emptySrv : Srv := ⟨fun _ => none, fun _ => none⟩

/-- `os.path.join(PROJECTS_DIR, project_id)`. -/
def projPath (pid : String) : String := "projects/" ++ pid

/-- The conventional build-output artifact path used by `create_dummy_apk`,
`build_project_thread` and `download_apk`. -/
def apkConvPath (pid : String) : String :=
  projPath pid ++ "/app/build/outputs/apk/debug/app-debug.apk"

/-- The metadata dict first persisted by `create_project`
(status `'building'`, progress 0). -/
def initialMeta (pid : String) (a : Analysis) (now : Nat) : Meta :=
  { id := pid, app_type := a.app_type, package_name := a.package_name,
    features := a.features, description := "", created_at := now,
    status := "building", progress := 0, apk_path := none, error := none }

/-- The metadata dict persisted by `create_project` after scaffolding
(status `'generated'`, progress 50). -/
def generatedMeta (pid : String) (a : Analysis) (now : Nat) : Meta :=
  { initialMeta pid a now with status := "generated", progress := 50 }

/-- State after `create_project` has written the initial record. -/
def stInit (pid : String) (a : Analysis) (now : Nat) (st : Srv) : Srv :=
  putRec pid (initialMeta pid a now) st

/-- State after `generate_android_project` has materialized the file tree
(including the stub artifact written by `create_dummy_apk`). -/
def stScaff (pid : String) (a : Analysis) (now : Nat) (st : Srv) : Srv :=
  { stInit pid a now st with
    files := applyWrites
      (scaffoldWrites (projPath pid) a.app_type a.package_name a.features)
      (stInit pid a now st).files }

/-- State after `create_project` has committed the `'generated'` record. -/
def stGen (pid : String) (a : Analysis) (now : Nat) (st : Srv) : Srv :=
  putRec pid (generatedMeta pid a now) (stScaff pid a now st)

/-- The `except` clause of `build_project_thread`: if a metadata record
exists, rewrite it with status `'error'` and the exception message attached
(progress untouched); otherwise nothing is persisted. -/
def errorHandler (pid msg : String) (st : Srv) (commits : List Meta) :
    Srv × List Meta :=
  match st.records pid with
  | some m =>
    let me := { m with status := "error", error := some msg }
    (putRec pid me st, commits ++ [me])
  | none => (st, commits)

/-- `RahlAIBuilder.build_project_thread pid analysis`, run to completion.
`failAt` injects a failure: `some i` makes the `i`-th I/O operation raise
(0 = `os.makedirs`, 1 = initial metadata write, 2 = scaffolding,
3 = `'generated'` metadata write, 4 = the re-read/`'completed'` write),
after which control transfers to the `except` clause with message `msg`.
Returns the final state and the list of record values committed, in order. -/
def buildProjectThread (pid : String) (a : Analysis) (now : Nat)
    (failAt : Option (Fin 5)) (msg : String) (st : Srv) : Srv × List Meta :=
  if failAt = some 0 then errorHandler pid msg st [] else
  if failAt = some 1 then errorHandler pid msg st [] else
  if failAt = some 2 then
    errorHandler pid msg (stInit pid a now st) [initialMeta pid a now] else
  if failAt = some 3 then
    errorHandler pid msg (stScaff pid a now st) [initialMeta pid a now] else
  if failAt = some 4 then
    errorHandler pid msg (stGen pid a now st)
      [initialMeta pid a now, generatedMeta pid a now] else
  match (stGen pid a now st).records pid with
  | none => (stGen pid a now st, [initialMeta pid a now, generatedMeta pid a now])
  | some m =>
    let m2 := { m with status := "completed", progress := 100,
                       apk_path := some (apkConvPath pid) }
    (putRec pid m2 (stGen pid a now st),
     [initialMeta pid a now, generatedMeta pid a now, m2])

/-- The JSON body returned by a successful `/api/build` request. -/
structure BuildResponse where
  status : String
  project_id : String
  analysis : Analysis
deriving DecidableEq

/-- The `/api/build` route (`build_apk` in `app.py`): validate, classify, spawn
the background thread (returned as a pending task, not yet run) and answer
immediately.  The fresh `uuid` prefix is the parameter `pid`.  Note the
record store is untouched at response time. -/
def buildApkRoute (descr : Option String) (pid : String) (st : Srv) :
    Except (String × Nat) BuildResponse × Srv × Option (String × Analysis) :=
  match descr with
  | none => (Except.error ("Missing description", 400), st, none)
  | some d0 =>
    let d := pyStrip d0
    if d.length < 5 then (Except.error ("Description too short", 400), st, none)
    else
      let a := analyze_description d
      (Except.ok { status := "building", project_id := pid, analysis := a },
       st, some (pid, a))

/-- The JSON body returned by `/api/project/<id>`. -/
structure StatusView where
  meta : Meta
  apk_ready : Bool
  apk_size : Option Nat
deriving DecidableEq

/-- The `/api/project/<id>` route (`get_project_status`): 404 when no record
file exists, else the record with the derived artifact-readiness fields. -/
def getProjectStatus (pid : String) (st : Srv) :
    Except (String × Nat) StatusView :=
  match st.records pid with
  | none => Except.error ("Project not found", 404)
  | some m =>
    match m.apk_path with
    | some p =>
      match st.files p with
      | some c => Except.ok { meta := m, apk_ready := true, apk_size := some c.data.length }
      | none => Except.ok { meta := m, apk_ready := false, apk_size := none }
    | none => Except.ok { meta := m, apk_ready := false, apk_size := none }

/-- The `/api/download/<id>` route (`download_apk`): serve the file at the
conventional artifact path if it exists; otherwise fall back to the record's
`apk_path`; otherwise 404.  A served file is the pair
(download name, content). -/
def downloadApk (pid : String) (st : Srv) :
    Except (String × Nat) (String × String) :=
  match st.files (apkConvPath pid) with
  | some content => Except.ok ("rahl_" ++ pid ++ ".apk", content)
  | none =>
    match st.records pid with
    | some m =>
      match m.apk_path with
      | some p =>
        match st.files p with
        | some c => Except.ok ("rahl_" ++ pid ++ ".apk", c)
        | none => Except.error ("APK not found or not built yet", 404)
      | none => Except.error ("APK not found or not built yet", 404)
    | none => Except.error ("APK not found or not built yet", 404)

/-- The allowed forward transitions between committed (status, progress)
pairs: `building → generated → completed`, with `error` reachable only from
the two in-progress states, keeping their progress value. -/
def lifecycleStep (x y : String × Nat) : Prop :=
  (x = ("building", 0) ∧ y = ("generated", 50)) ∨
  (x = ("generated", 50) ∧ y = ("completed", 100)) ∨
  (x = ("building", 0) ∧ y = ("error", 0)) ∨
  (x = ("generated", 50) ∧ y = ("error", 50))

instance : DecidableRel lifecycleStep := fun _ _ => by
  unfold lifecycleStep; infer_instance

/-! ## Build invoker (`src/backend/build.py`, `AndroidAPKBuilder.build_apk`)

The process state is the current working directory; `OsM` threads it through
and preserves it across raised exceptions, as the OS does. -/

/-- Computations over the process working directory that may raise. -/
def OsM (α : Type) : Type := String → Except String α × String

def osPure {α : Type} (a : α) : OsM α := fun s => (Except.ok a, s)

def osBind {α β : Type} (x : OsM α) (f : α → OsM β) : OsM β := fun s =>
  match x s with
  | (Except.ok a, s1) => f a s1
  | (Except.error e, s1) => (Except.error e, s1)

/-- `os.getcwd()`. -/
def osGetCwd : OsM String := fun s => (Except.ok s, s)

/-- `os.chdir p`. -/
def osChdir (p : String) : OsM Unit := fun _ => (Except.ok (), p)

/-- Raise an exception carrying `msg`. -/
def osThrow {α : Type} (msg : String) : OsM α := fun s => (Except.error msg, s)

/-- Python `try: body except Exception as e: handler(e) finally: fin`
(the handler and `fin` are total here, as in the modelled code). -/
def tryFin {α : Type} (body : OsM α) (handler : String → OsM α)
    (fin : OsM Unit) : OsM α := fun s =>
  let r1 := body s
  let r2 := match r1.1 with
    | Except.ok a => (Except.ok a, r1.2)
    | Except.error e => handler e r1.2
  let r3 := fin r2.2
  (r2.1, r3.2)

def runOs {α : Type} (x : OsM α) (s : String) : Except String α × String := x s

/-- The observable behavior of the spawned Gradle subprocess together with
the output-streaming loop: either the stream is read to the end and the
process exits with a code, or an exception is raised. -/
inductive GradleBehavior where
  | completes (returncode : Int) (lines : List String)
  | raises (msg : String)
deriving DecidableEq

def gradleRun (beh : GradleBehavior) : OsM (Int × List String) :=
  match beh with
  | .completes rc lines => osPure (rc, lines)
  | .raises m => osThrow m

/-- The result dict of `AndroidAPKBuilder.build_apk`. -/
structure BuildResult where
  success : Bool
  apk_path : Option String := none
  apk_size : Option Nat := none
  output : Option String := none
  error : Option String := none
deriving DecidableEq

/-- `'\n'.join(build_output[-20:])` where `build_output` holds the streamed
lines, each `str.strip()`-ed on append. -/
def tailJoin (lines : List String) : String :=
  String.intercalate "\n" (takeLast 20 (lines.map pyStrip))

/-- The result construction after the subprocess has exited and the cwd is
restored: zero exit looks for the artifact (`findRes` is the outcome of
`_find_apk_file`, a path and a size), non-zero exit is a failure; both carry
the retained tail output. -/
def buildReport (rc : Int) (lines : List String)
    (findRes : Option (String × Nat)) : BuildResult :=
  if rc = 0 then
    match findRes with
    | some pz =>
      { success := true, apk_path := some pz.1, apk_size := some pz.2,
        output := some (tailJoin lines) }
    | none =>
      { success := false, error := some "APK file not found after build",
        output := some (tailJoin lines) }
  else
    { success := false,
      error := some ("Build failed with exit code " ++ toString rc),
      output := some (tailJoin lines) }

/-- `AndroidAPKBuilder.build_apk project_path build_type`: remember the
original cwd, chdir into the project, run Gradle streaming its output, chdir
back, build the result; exceptions are caught and returned as a failure
dict; the `finally` clause restores the original cwd on every exit path. -/
def apkBuild (project_path bt : String) (beh : GradleBehavior)
    (findRes : Option (String × Nat)) : OsM BuildResult :=
  osBind osGetCwd (fun original_dir =>
    tryFin
      (osBind (osChdir project_path) (fun _ =>
        osBind (gradleRun beh) (fun r =>
          osBind (osChdir original_dir) (fun _ =>
            osPure (buildReport r.1 r.2 findRes)))))
      (fun e => osPure { success := false, error := some e })
      (osChdir original_dir))

/-! ## Helper lemmas -/

theorem lcContains_nil (hay : List Char) : lcContains hay [] = true := by
  cases hay <;> simp [lcContains, leadsWith]

theorem leadsWith_append (sub hay ext : List Char) (h : leadsWith sub hay = true) :
    leadsWith sub (hay ++ ext) = true := by
  induction sub generalizing hay with
  | nil => rfl
  | cons c cs ih =>
    cases hay with
    | nil => simp [leadsWith] at h
    | cons d ds =>
      simp only [leadsWith, Bool.and_eq_true, beq_iff_eq] at h
      simp only [List.cons_append, leadsWith, Bool.and_eq_true, beq_iff_eq]
      exact ⟨h.1, ih ds h.2⟩

theorem lcContains_append (hay ext sub : List Char) (h : lcContains hay sub = true) :
    lcContains (hay ++ ext) sub = true := by
  induction hay with
  | nil =>
    cases sub with
    | nil => exact lcContains_nil ext
    | cons c cs => simp [lcContains, leadsWith] at h
  | cons c t ih =>
    simp only [lcContains, Bool.or_eq_true] at h
    simp only [List.cons_append, lcContains, Bool.or_eq_true]
    cases h with
    | inl hl => exact Or.inl (leadsWith_append _ _ _ hl)
    | inr hr => exact Or.inr (ih hr)

theorem leadsWith_subset (sub hay : List Char) (h : leadsWith sub hay = true) :
    ∀ c ∈ sub, c ∈ hay := by
  induction sub generalizing hay with
  | nil => intro c hc; cases hc
  | cons c cs ih =>
    cases hay with
    | nil => simp [leadsWith] at h
    | cons d ds =>
      simp only [leadsWith, Bool.and_eq_true, beq_iff_eq] at h
      intro x hx
      rcases List.mem_cons.mp hx with h1 | h1
      · subst h1; rw [h.1]; exact List.mem_cons_self _ _
      · exact List.mem_cons_of_mem _ (ih ds h.2 x h1)

theorem lcContains_subset (hay sub : List Char) (h : lcContains hay sub = true) :
    ∀ c ∈ sub, c ∈ hay := by
  induction hay with
  | nil =>
    cases sub with
    | nil => intro c hc; cases hc
    | cons c cs => simp [lcContains, leadsWith] at h
  | cons c t ih =>
    simp only [lcContains, Bool.or_eq_true] at h
    cases h with
    | inl hl => exact leadsWith_subset _ _ hl
    | inr hr => exact fun x hx => List.mem_cons_of_mem _ (ih hr x hx)

theorem lcContains_ws_false (hay sub : List Char)
    (hws : ∀ c ∈ hay, pyIsSpace c = true)
    (hnws : ∃ c ∈ sub, pyIsSpace c = false) : lcContains hay sub = false := by
  rcases hnws with ⟨c, hc, hcs⟩
  cases hcon : lcContains hay sub
  · rfl
  · have := hws c (lcContains_subset hay sub hcon c hc)
    simp [this] at hcs

theorem map_fixed {α : Type} (f : α → α) (l : List α) (h : ∀ a ∈ l, f a = a) :
    l.map f = l := by
  induction l with
  | nil => rfl
  | cons a t ih =>
    simp only [List.map_cons]
    rw [h a (List.mem_cons_self _ _), ih (fun x hx => h x (List.mem_cons_of_mem _ hx))]

theorem splitWsAux_no_ws (l : List Char) :
    ∀ acc, (∀ c ∈ acc, pyIsSpace c = false) →
      ∀ t ∈ splitWsAux l acc, ∀ c ∈ t, pyIsSpace c = false := by
  induction l with
  | nil =>
    intro acc hacc t ht c hc
    by_cases he : acc.isEmpty
    · simp [splitWsAux, he] at ht
    · simp only [splitWsAux, if_neg he, List.mem_singleton] at ht
      subst ht
      exact hacc c (List.mem_reverse.mp hc)
  | cons d cs ih =>
    intro acc hacc t ht c hc
    simp only [splitWsAux] at ht
    by_cases hd : pyIsSpace d = true
    · rw [if_pos hd] at ht
      by_cases he : acc.isEmpty
      · rw [if_pos he] at ht
        exact ih [] (by intro x hx; cases hx) t ht c hc
      · rw [if_neg he] at ht
        rcases List.mem_cons.mp ht with h1 | h1
        · subst h1; exact hacc c (List.mem_reverse.mp hc)
        · exact ih [] (by intro x hx; cases hx) t h1 c hc
    · rw [if_neg hd] at ht
      refine ih (d :: acc) ?_ t ht c hc
      intro x hx
      rcases List.mem_cons.mp hx with h1 | h1
      · subst h1; exact Bool.eq_false_iff.mpr hd
      · exact hacc x h1

theorem splitWsAux_subset (l : List Char) :
    ∀ acc t, t ∈ splitWsAux l acc → ∀ c ∈ t, c ∈ l ∨ c ∈ acc := by
  induction l with
  | nil =>
    intro acc t ht c hc
    by_cases he : acc.isEmpty
    · simp [splitWsAux, he] at ht
    · simp only [splitWsAux, if_neg he, List.mem_singleton] at ht
      subst ht
      exact Or.inr (List.mem_reverse.mp hc)
  | cons d cs ih =>
    intro acc t ht c hc
    simp only [splitWsAux] at ht
    by_cases hd : pyIsSpace d = true
    · rw [if_pos hd] at ht
      by_cases he : acc.isEmpty
      · rw [if_pos he] at ht
        rcases ih [] t ht c hc with h1 | h1
        · exact Or.inl (List.mem_cons_of_mem _ h1)
        · cases h1
      · rw [if_neg he] at ht
        rcases List.mem_cons.mp ht with h1 | h1
        · subst h1; exact Or.inr (List.mem_reverse.mp hc)
        · rcases ih [] t h1 c hc with h2 | h2
          · exact Or.inl (List.mem_cons_of_mem _ h2)
          · cases h2
    · rw [if_neg hd] at ht
      rcases ih (d :: acc) t ht c hc with h1 | h1
      · exact Or.inl (List.mem_cons_of_mem _ h1)
      · rcases List.mem_cons.mp h1 with h2 | h2
        · subst h2; exact Or.inl (List.mem_cons_self _ _)
        · exact Or.inr h2

theorem splitWsAux_all_ws (l : List Char) (h : ∀ c ∈ l, pyIsSpace c = true) :
    splitWsAux l [] = [] := by
  induction l with
  | nil => rfl
  | cons c cs ih =>
    simp only [splitWsAux]
    rw [if_pos (h c (List.mem_cons_self _ _))]
    simp only [List.isEmpty_nil, if_pos]
    exact ih (fun x hx => h x (List.mem_cons_of_mem _ hx))

theorem splitWs_token_no_ws (l : List Char) :
    ∀ t ∈ splitWs l, ∀ c ∈ t, pyIsSpace c = false :=
  splitWsAux_no_ws l [] (by intro c hc; cases hc)

theorem splitWs_token_subset (l : List Char) :
    ∀ t ∈ splitWs l, ∀ c ∈ t, c ∈ l := by
  intro t ht c hc
  rcases splitWsAux_subset l [] t ht c hc with h | h
  · exact h
  · cases h

theorem char_toNat_ofNat {n : Nat} (h : n < 55296) : (Char.ofNat n).toNat = n := by
  rw [Char.ofNat, dif_pos (Or.inl h : n.isValidChar)]
  rfl

theorem toLower_idem (c : Char) : Char.toLower (Char.toLower c) = Char.toLower c := by
  unfold Char.toLower
  by_cases h : c.toNat ≥ 65 ∧ c.toNat ≤ 90
  · rw [if_pos h]
    have hv : (Char.ofNat (c.toNat + 32)).toNat = c.toNat + 32 :=
      char_toNat_ofNat (by omega)
    rw [if_neg (by rw [hv]; omega)]
  · rw [if_neg h, if_neg h]

theorem ws_toLower_fix (c : Char) (h : pyIsSpace c = true) : Char.toLower c = c := by
  simp only [pyIsSpace, Bool.or_eq_true, decide_eq_true_eq] at h
  rcases h with ((((h | h) | h) | h) | h) | h <;> subst h <;> decide

theorem lower_image_fix (l : List Char) : ∀ c ∈ lcLower l, Char.toLower c = c := by
  intro c hc
  rcases List.mem_map.mp hc with ⟨c0, _, rfl⟩
  exact toLower_idem c0

theorem lower_image_ws (l : List Char) (h : ∀ c ∈ l, pyIsSpace c = true) :
    ∀ c ∈ lcLower l, pyIsSpace c = true := by
  intro c hc
  rcases List.mem_map.mp hc with ⟨c0, hc0, rfl⟩
  rw [ws_toLower_fix c0 (h c0 hc0)]
  exact h c0 hc0

theorem strip_empty_all_ws (s : String) (h : pyStrip s = "") :
    ∀ c ∈ s.data, pyIsSpace c = true := by
  have hd : ((s.data.dropWhile pyIsSpace).reverse.dropWhile pyIsSpace).reverse = [] := by
    have := congrArg String.data h
    simpa [pyStrip] using this
  rw [List.reverse_eq_nil_iff] at hd
  have h2 : ∀ c ∈ (s.data.dropWhile pyIsSpace).reverse, pyIsSpace c = true := by
    intro c hc
    exact List.dropWhile_eq_nil_iff.mp hd c hc
  have h3 : ∀ c ∈ s.data.dropWhile pyIsSpace, pyIsSpace c = true :=
    fun c hc => h2 c (List.mem_reverse.mpr hc)
  intro c hc
  have hsplit : c ∈ s.data.takeWhile pyIsSpace ++ s.data.dropWhile pyIsSpace := by
    rw [List.takeWhile_append_dropWhile]
    exact hc
  rcases List.mem_append.mp hsplit with h4 | h4
  · exact List.mem_takeWhile_imp h4
  · exact h3 c h4

theorem joinDots_chars (ts : List (List Char)) :
    ∀ c ∈ joinDots ts, c = '.' ∨ ∃ t ∈ ts, c ∈ t := by
  induction ts with
  | nil => intro c hc; cases hc
  | cons t ts ih =>
    cases ts with
    | nil =>
      intro c hc
      exact Or.inr ⟨t, List.mem_cons_self _ _, by simpa [joinDots] using hc⟩
    | cons t2 ts2 =>
      intro c hc
      have hc2 : c ∈ t ∨ c = '.' ∨ c ∈ joinDots (t2 :: ts2) := by
        simpa [joinDots] using hc
      rcases hc2 with h1 | h1 | h1
      · exact Or.inr ⟨t, List.mem_cons_self _ _, h1⟩
      · exact Or.inl h1
      · rcases ih c h1 with h3 | ⟨u, hu, hcu⟩
        · exact Or.inl h3
        · exact Or.inr ⟨u, List.mem_cons_of_mem _ hu, hcu⟩

theorem foldl_if_no_hit (dl : List Char) (l : List (String × List String)) :
    ∀ init, (∀ p ∈ l, hasHit dl p.2 = false) →
      l.foldl (fun acc p => if hasHit dl p.2 then p.1 else acc) init = init := by
  induction l with
  | nil => intro init _; rfl
  | cons p rest ih =>
    intro init h
    rw [List.foldl_cons]
    have h0 : ¬(hasHit dl p.2 = true) := by simp [h p (List.mem_cons_self _ _)]
    rw [if_neg h0]
    exact ih init (fun q hq => h q (List.mem_cons_of_mem _ hq))

theorem applyWrites_append (l1 l2 : List (String × String)) (f : Files) :
    applyWrites (l1 ++ l2) f = applyWrites l2 (applyWrites l1 f) := by
  simp [applyWrites, List.foldl_append]

theorem applyWrites_not_mem (ws : List (String × String)) :
    ∀ (f : Files) (x : String), (∀ w ∈ ws, w.1 ≠ x) → applyWrites ws f x = f x := by
  induction ws with
  | nil => intro f x _; rfl
  | cons w rest ih =>
    intro f x h
    rw [show applyWrites (w :: rest) f = applyWrites rest (insertFile w.1 w.2 f) from rfl]
    rw [ih _ x (fun v hv => h v (List.mem_cons_of_mem _ hv))]
    simp only [insertFile]
    rw [if_neg (fun hx => (h w (List.mem_cons_self _ _)) hx.symm)]

theorem applyWrites_written (ws : List (String × String)) :
    ∀ (f g : Files) (x : String), (∃ w ∈ ws, w.1 = x) →
      applyWrites ws f x = applyWrites ws g x := by
  induction ws with
  | nil => intro f g x h; rcases h with ⟨w, hw, _⟩; cases hw
  | cons w rest ih =>
    intro f g x h
    rw [show applyWrites (w :: rest) f = applyWrites rest (insertFile w.1 w.2 f) from rfl,
        show applyWrites (w :: rest) g = applyWrites rest (insertFile w.1 w.2 g) from rfl]
    by_cases hx : ∃ v ∈ rest, v.1 = x
    · exact ih _ _ x hx
    · push_neg at hx
      have hw1 : w.1 = x := by
        rcases h with ⟨v, hv, hvx⟩
        rcases List.mem_cons.mp hv with h1 | h1
        · subst h1; exact hvx
        · exact absurd hvx (hx v h1)
      rw [applyWrites_not_mem rest _ x hx, applyWrites_not_mem rest _ x hx]
      simp only [insertFile]
      rw [if_pos hw1.symm, if_pos hw1.symm]

theorem appTypeOf_eq (dl : List Char) : appTypeOf dl =
    (if hasHit dl (catEntry 5).2 then (catEntry 5).1 else
     if hasHit dl (catEntry 4).2 then (catEntry 4).1 else
     if hasHit dl (catEntry 3).2 then (catEntry 3).1 else
     if hasHit dl (catEntry 2).2 then (catEntry 2).1 else
     if hasHit dl (catEntry 1).2 then (catEntry 1).1 else
     if hasHit dl (catEntry 0).2 then (catEntry 0).1 else "webview") := rfl

/-- Claim C1, counterexample: the description `"calculator game"` contains the
keyword `"calculator"` of the first catalog archetype and no keyword of any
earlier-priority archetype (there is none earlier), yet classification
returns `"game"`, the last archetype with a hit, not `"calculator"`: the
inner `break` of the source leaves only the keyword loop, so later catalog
entries overwrite earlier hits. -/
theorem c1_cex :
    hasHit (lcLower "calculator game".data) (catEntry 0).2 = true ∧
    (catEntry 0).1 = "calculator" ∧
    hasHit (lcLower "calculator game".data) (catEntry 5).2 = true ∧
    (analyze_description "calculator game").app_type = "game" ∧
    "game" ≠ "calculator" := by decide

/-- Claim C1 (amended): for every description, the LAST archetype in catalog
order with a keyword hit wins; in particular, for every description
containing a given archetype's keyword and no keyword of any
LATER-priority archetype, classification returns that archetype. -/
theorem c1_last_hit_wins (d : String) (i : Nat) (hi : i < 6)
    (hhit : hasHit (lcLower d.data) (catEntry i).2 = true)
    (hlater : ∀ j, j < 6 → i < j → hasHit (lcLower d.data) (catEntry j).2 = false) :
    (analyze_description d).app_type = (catEntry i).1 := by
  have happ : (analyze_description d).app_type = appTypeOf (lcLower d.data) := rfl
  rw [happ, appTypeOf_eq]
  interval_cases i
  · have e1 := hlater 1 (by omega) (by omega)
    have e2 := hlater 2 (by omega) (by omega)
    have e3 := hlater 3 (by omega) (by omega)
    have e4 := hlater 4 (by omega) (by omega)
    have e5 := hlater 5 (by omega) (by omega)
    simp [hhit, e1, e2, e3, e4, e5]
  · have e2 := hlater 2 (by omega) (by omega)
    have e3 := hlater 3 (by omega) (by omega)
    have e4 := hlater 4 (by omega) (by omega)
    have e5 := hlater 5 (by omega) (by omega)
    simp [hhit, e2, e3, e4, e5]
  · have e3 := hlater 3 (by omega) (by omega)
    have e4 := hlater 4 (by omega) (by omega)
    have e5 := hlater 5 (by omega) (by omega)
    simp [hhit, e3, e4, e5]
  · have e4 := hlater 4 (by omega) (by omega)
    have e5 := hlater 5 (by omega) (by omega)
    simp [hhit, e4, e5]
  · have e5 := hlater 5 (by omega) (by omega)
    simp [hhit, e5]
  · simp [hhit]

/-- Witness for C1 (amended) at the description `"calculator"`. -/
theorem c1_last_hit_wins_w :
    (analyze_description "calculator").app_type = (catEntry 0).1 :=
  c1_last_hit_wins "calculator" 0 (by omega) (by decide)
    (by intro j h1 h2; interval_cases j <;> decide)

/-- Claim C10: classification is total; on a description whose stripped text
is empty it returns the default archetype `webview`, no features, the
feature count 0, and the package identifier exactly `"com.rahl."` with its
trailing dot. -/
theorem c10_total_default (d : String) (h : pyStrip d = "") :
    analyze_description d =
      { app_type := "webview", features := [], package_name := "com.rahl.",
        detected_features := 0 } := by
  have hws := strip_empty_all_ws d h
  have hwsl : ∀ c ∈ lcLower d.data, pyIsSpace c = true := lower_image_ws d.data hws
  have hallkw : ∀ p ∈ keywordCatalog, ∀ kw ∈ p.2, ∃ c ∈ kw.data, pyIsSpace c = false := by
    decide
  have hallft : ∀ p ∈ featureTable, ∀ kw ∈ p.2, ∃ c ∈ kw.data, pyIsSpace c = false := by
    decide
  have hnohit : ∀ p ∈ keywordCatalog, hasHit (lcLower d.data) p.2 = false := by
    intro p hp
    simp only [hasHit, List.any_eq_false]
    intro kw hkw
    simp [lcContains_ws_false _ _ hwsl (hallkw p hp kw hkw)]
  have happ : appTypeOf (lcLower d.data) = "webview" :=
    foldl_if_no_hit (lcLower d.data) keywordCatalog "webview" hnohit
  have hfeat : extractFeatures (lcLower d.data) = [] := by
    unfold extractFeatures
    have hfil : featureTable.filter (fun p => hasHit (lcLower d.data) p.2) = [] := by
      rw [List.filter_eq_nil_iff]
      intro p hp
      rw [Bool.not_eq_true, hasHit, List.any_eq_false]
      intro kw hkw
      simp [lcContains_ws_false _ _ hwsl (hallft p hp kw hkw)]
    rw [hfil]
    rfl
  have hsplit : splitWs (lcLower d.data) = [] := splitWsAux_all_ws _ hwsl
  have hpkg : pkgNameOf (lcLower d.data) = "com.rahl." := by
    unfold pkgNameOf basePkg
    rw [hsplit]
    rfl
  simp only [analyze_description, Analysis.mk.injEq]
  exact ⟨happ, hfeat, hpkg, by simp [hfeat]⟩

/-- Witness for C10 at the all-whitespace description `"  "`. -/
theorem c10_total_default_w :
    analyze_description "  " =
      { app_type := "webview", features := [], package_name := "com.rahl.",
        detected_features := 0 } :=
  c10_total_default "  " (by decide)

/-- Claim C4, counterexample: for the description `"my@pp is cool"` the
derived package identifier is `"com.rahl.my@pp.is.cool"`; the character
`'@'`, which is outside any identifier-safe set, is carried through
unchanged — the source performs no stripping of identifier-unsafe
characters. -/
theorem c4_cex :
    (analyze_description "my@pp is cool").package_name = "com.rahl.my@pp.is.cool" ∧
    '@' ∈ (analyze_description "my@pp is cool").package_name.data := by decide

/-- Claim C4 (amended): the derived package identifier always starts with the
namespace `"com.rahl."`, never exceeds 50 characters, and equals the first
three whitespace-delimited tokens of the lower-cased description joined
with `'.'`, namespace-prefixed and truncated to 50 characters — with NO
stripping of identifier-unsafe characters. -/
theorem c4_package_shape (d : String) :
    beginsWith (analyze_description d).package_name "com.rahl." = true ∧
    (analyze_description d).package_name.length ≤ 50 ∧
    (analyze_description d).package_name = ⟨(basePkg (lcLower d.data)).take 50⟩ := by
  have hpkg : (analyze_description d).package_name = pkgNameOf (lcLower d.data) := rfl
  have hcomchars : ∀ c ∈ "com.rahl.".data, c ≠ ' ' ∧ Char.toLower c = c := by decide
  have hchars : ∀ c ∈ basePkg (lcLower d.data),
      (if c = ' ' then '_' else c) = c ∧ Char.toLower c = c := by
    intro c hc
    rcases List.mem_append.mp hc with h1 | h1
    · exact ⟨if_neg (hcomchars c h1).1, (hcomchars c h1).2⟩
    · rcases joinDots_chars _ c h1 with h2 | ⟨t, ht, hct⟩
      · subst h2
        exact ⟨by decide, by decide⟩
      · have ht2 : t ∈ splitWs (lcLower d.data) := List.take_subset 3 _ ht
        have hnws : pyIsSpace c = false := splitWs_token_no_ws _ t ht2 c hct
        have hcdl : c ∈ lcLower d.data := splitWs_token_subset _ t ht2 c hct
        constructor
        · rw [if_neg]
          intro hsp
          subst hsp
          simp [pyIsSpace] at hnws
        · exact lower_image_fix d.data c hcdl
  have hrep : lcReplaceSpace (basePkg (lcLower d.data)) = basePkg (lcLower d.data) :=
    map_fixed _ _ (fun c hc => (hchars c hc).1)
  have hlow : lcLower (basePkg (lcLower d.data)) = basePkg (lcLower d.data) :=
    map_fixed _ _ (fun c hc => (hchars c hc).2)
  have hsimpl : pkgNameOf (lcLower d.data) = ⟨(basePkg (lcLower d.data)).take 50⟩ := by
    unfold pkgNameOf
    rw [hrep, hlow]
  refine ⟨?_, ?_, by rw [hpkg, hsimpl]⟩
  · rw [hpkg, hsimpl]
    have hbw : ∀ l : List Char, l.take ("com.rahl.".data.length) = "com.rahl.".data →
        beginsWith ⟨l⟩ "com.rahl." = true := by
      intro l hl
      simp only [beginsWith, beq_iff_eq]
      exact hl
    apply hbw
    rw [List.take_take]
    have hmin : min ("com.rahl.".data.length) 50 = "com.rahl.".data.length := by decide
    rw [hmin]
    unfold basePkg
    exact List.take_left _ _
  · rw [hpkg, hsimpl]
    show ((basePkg (lcLower d.data)).take 50).length ≤ 50
    rw [List.length_take]
    exact Nat.min_le_left _ _

/-- Claim C8: feature detection is monotone under extending the description
(appending never removes a detected feature), and the feature list is always
a sublist of the feature-definition-order list, hence reported in definition
order with duplicates suppressed. -/
theorem c8_features_monotone (d k : String) :
    (∀ f ∈ (analyze_description d).features, f ∈ (analyze_description (d ++ k)).features) ∧
    (analyze_description d).features.Sublist (featureTable.map Prod.fst) := by
  constructor
  · intro f hf
    have hfe : (analyze_description d).features = extractFeatures (lcLower d.data) := rfl
    rw [hfe] at hf
    rcases List.mem_map.mp hf with ⟨p, hp, rfl⟩
    have hpm := List.mem_filter.mp hp
    show p.1 ∈ extractFeatures (lcLower (d ++ k).data)
    refine List.mem_map.mpr ⟨p, List.mem_filter.mpr ⟨hpm.1, ?_⟩, rfl⟩
    have hdk : lcLower (d ++ k).data = lcLower d.data ++ lcLower k.data := by
      rw [String.data_append]
      exact List.map_append _ _ _
    rw [hdk]
    have hhit := hpm.2
    rw [hasHit] at hhit ⊢
    rcases List.any_eq_true.mp hhit with ⟨kw, hkw, hc⟩
    exact List.any_eq_true.mpr ⟨kw, hkw, lcContains_append _ _ _ hc⟩
  · exact List.Sublist.map _ (List.filter_sublist _)

/-- Witness for C8 at `d = "dark"`, `k = "share"`. -/
theorem c8_features_monotone_w :
    "dark_mode" ∈ (analyze_description ("dark" ++ "share")).features ∧
    (analyze_description "dark").features.Sublist (featureTable.map Prod.fst) :=
  ⟨(c8_features_monotone "dark" "share").1 "dark_mode" (by decide),
   (c8_features_monotone "dark" "share").2⟩

/-- Claim C7: scaffolding is idempotent — re-applying the exact write list of
`generate_android_project` for identical target directory, archetype,
package identifier and feature set to an already-scaffolded file tree
leaves the tree unchanged, since every write is an overwriting insert whose
content is a pure function of those inputs. -/
theorem c7_scaffold_idem (p atype pkg : String) (feats : List String) (fs : Files) :
    applyWrites (scaffoldWrites p atype pkg feats)
        (applyWrites (scaffoldWrites p atype pkg feats) fs)
      = applyWrites (scaffoldWrites p atype pkg feats) fs := by
  funext x
  by_cases h : ∃ w ∈ scaffoldWrites p atype pkg feats, w.1 = x
  · exact applyWrites_written _ _ _ x h
  · push_neg at h
    exact applyWrites_not_mem _ _ x h

theorem stInit_records (pid : String) (a : Analysis) (now : Nat) (st : Srv) :
    (stInit pid a now st).records pid = some (initialMeta pid a now) := by
  simp [stInit, putRec]

theorem stScaff_records (pid : String) (a : Analysis) (now : Nat) (st : Srv) :
    (stScaff pid a now st).records pid = some (initialMeta pid a now) := by
  simp [stScaff, stInit, putRec]

theorem stGen_records (pid : String) (a : Analysis) (now : Nat) (st : Srv) :
    (stGen pid a now st).records pid = some (generatedMeta pid a now) := by
  simp [stGen, putRec]

/-- Claim C2, counterexample: the accepted request `"calculator app"` returns
the project identifier `"p1"` while the record store is still empty — the
record is created only by the background thread, which has not run — so a
status query issued right after the creation response returns the
not-found error, contradicting the claim that the record is persisted
before the identifier is returned. -/
theorem c2_cex :
    (buildApkRoute (some "calculator app") "p1" emptySrv).1
      = Except.ok { status := "building", project_id := "p1",
                    analysis := analyze_description "calculator app" } ∧
    getProjectStatus "p1" (buildApkRoute (some "calculator app") "p1" emptySrv).2.1
      = Except.error ("Project not found", 404) := by
  constructor
  · rfl
  · rfl

/-- Claim C2 (amended): on acceptance the response with the project
identifier is returned while the store is untouched (an immediate status
query on a fresh identifier returns not-found), the background task is
spawned carrying the identifier and analysis, and only the task's first
persist makes a status query return a record. -/
theorem c2_async_record (d0 pid : String) (now : Nat) (st : Srv)
    (hacc : ¬((pyStrip d0).length < 5)) (hfresh : st.records pid = none) :
    (buildApkRoute (some d0) pid st).1
      = Except.ok { status := "building", project_id := pid,
                    analysis := analyze_description (pyStrip d0) } ∧
    (buildApkRoute (some d0) pid st).2.2 = some (pid, analyze_description (pyStrip d0)) ∧
    getProjectStatus pid (buildApkRoute (some d0) pid st).2.1
      = Except.error ("Project not found", 404) ∧
    getProjectStatus pid (stInit pid (analyze_description (pyStrip d0)) now st)
      = Except.ok { meta := initialMeta pid (analyze_description (pyStrip d0)) now,
                    apk_ready := false, apk_size := none } := by
  refine ⟨?_, ?_, ?_, ?_⟩
  · simp [buildApkRoute, hacc]
  · simp [buildApkRoute, hacc]
  · simp [buildApkRoute, hacc, getProjectStatus, hfresh]
  · rw [getProjectStatus, stInit_records]
    rfl

/-- Witness for C2 (amended) at the description `"calculator app"`. -/
theorem c2_async_record_w :
    (buildApkRoute (some "calculator app") "p1" emptySrv).1
      = Except.ok { status := "building", project_id := "p1",
                    analysis := analyze_description (pyStrip "calculator app") } ∧
    (buildApkRoute (some "calculator app") "p1" emptySrv).2.2
      = some ("p1", analyze_description (pyStrip "calculator app")) ∧
    getProjectStatus "p1" (buildApkRoute (some "calculator app") "p1" emptySrv).2.1
      = Except.error ("Project not found", 404) ∧
    getProjectStatus "p1"
        (stInit "p1" (analyze_description (pyStrip "calculator app")) 0 emptySrv)
      = Except.ok { meta := initialMeta "p1" (analyze_description (pyStrip "calculator app")) 0,
                    apk_ready := false, apk_size := none } :=
  c2_async_record "calculator app" "p1" 0 emptySrv (by decide) rfl

/-- Claim C3, counterexample: the committed status sequence of a successful
run is `building → generated → completed`; the lifecycle state `received`
claimed by the specification is never committed at all — the initial
persisted status of `create_project` is `'building'`. -/
theorem c3_cex :
    ((buildProjectThread "p1" (analyze_description "calculator app") 0 none ""
        emptySrv).2).map (fun m => (m.status, m.progress))
      = [("building", 0), ("generated", 50), ("completed", 100)] ∧
    ∀ m ∈ (buildProjectThread "p1" (analyze_description "calculator app") 0 none ""
        emptySrv).2, m.status ≠ "received" := by
  constructor
  · rfl
  · decide

/-- Claim C3 (amended): for a fresh project identifier, the sequence of
(status, progress) pairs committed by the background task is monotonic along
`building → generated → completed` (progress 0 → 50 → 100) or ends in
`error` entered only from one of the two in-progress states (keeping its
progress); the initial committed state is always `building` with progress 0. -/
theorem c3_lifecycle (pid : String) (a : Analysis) (now : Nat) (msg : String)
    (st : Srv) (failAt : Option (Fin 5)) (hfresh : st.records pid = none) :
    List.Chain' lifecycleStep
        (((buildProjectThread pid a now failAt msg st).2).map
          (fun m => (m.status, m.progress))) ∧
    ∀ x ∈ ((((buildProjectThread pid a now failAt msg st).2).map
          (fun m => (m.status, m.progress))).head?), x = ("building", 0) := by
  rcases failAt with _ | i
  · have hTh : (buildProjectThread pid a now none msg st).2
        = [initialMeta pid a now, generatedMeta pid a now,
           { generatedMeta pid a now with
               status := "completed", progress := 100,
               apk_path := some (apkConvPath pid) }] := by
      simp [buildProjectThread, stGen_records]
    rw [hTh]
    refine ⟨?_, ?_⟩
    · simp [initialMeta, generatedMeta, List.chain'_cons, lifecycleStep]
    · simp [initialMeta]
  · rcases i with ⟨iv, hiv⟩
    interval_cases iv <;>
      refine ⟨?_, ?_⟩ <;>
      simp [buildProjectThread, errorHandler, hfresh, stInit_records, stScaff_records,
            stGen_records, initialMeta, generatedMeta, List.chain'_cons, lifecycleStep]

/-- Witness for C3 (amended): a run failing during scaffolding commits
`building` then `error`. -/
theorem c3_lifecycle_w :
    List.Chain' lifecycleStep
        (((buildProjectThread "p1" (analyze_description "calculator app") 0 (some 2)
            "boom" emptySrv).2).map (fun m => (m.status, m.progress))) ∧
    ∀ x ∈ ((((buildProjectThread "p1" (analyze_description "calculator app") 0 (some 2)
            "boom" emptySrv).2).map (fun m => (m.status, m.progress))).head?),
      x = ("building", 0) :=
  c3_lifecycle "p1" (analyze_description "calculator app") 0 "boom" emptySrv (some 2) rfl

/-- Claim C6, counterexample: the request `"calculator app"` is accepted with
no client-visible error, then the background task fails at the very first
metadata write (before any record exists); the `except` clause finds no
record file and persists nothing — the failure leaves neither a
client-visible error response nor a persisted `error` record. -/
theorem c6_cex :
    (buildApkRoute (some "calculator app") "p1" emptySrv).1
      = Except.ok { status := "building", project_id := "p1",
                    analysis := analyze_description "calculator app" } ∧
    (buildProjectThread "p1" (analyze_description "calculator app") 0 (some 1)
        "disk full" emptySrv).2 = [] ∧
    (buildProjectThread "p1" (analyze_description "calculator app") 0 (some 1)
        "disk full" emptySrv).1.records "p1" = none :=
  ⟨rfl, rfl, rfl⟩

/-- Claim C6 (amended): every failure raised after the initial record has
been persisted (operations 2–4 of the background task) results in a
persisted record whose status is `'error'` with the exception message
attached, and that record is the last commit; failures raised before the
first persist (operations 0–1) leave no record at all, and no failure
propagates out of the task. -/
theorem c6_error_persisted (pid : String) (a : Analysis) (now : Nat) (msg : String)
    (st : Srv) (i : Fin 5) (hi : 2 ≤ i.val) :
    ∃ m : Meta,
      ((buildProjectThread pid a now (some i) msg st).2).getLast? = some m ∧
      m.status = "error" ∧ m.error = some msg ∧
      (buildProjectThread pid a now (some i) msg st).1.records pid = some m := by
  rcases i with ⟨iv, hiv⟩
  interval_cases iv
  · refine ⟨{ initialMeta pid a now with status := "error", error := some msg },
        ?_, rfl, rfl, ?_⟩
    · simp [buildProjectThread, errorHandler, stInit_records]
    · simp [buildProjectThread, errorHandler, stInit_records, putRec]
  · refine ⟨{ initialMeta pid a now with status := "error", error := some msg },
        ?_, rfl, rfl, ?_⟩
    · simp [buildProjectThread, errorHandler, stScaff_records]
    · simp [buildProjectThread, errorHandler, stScaff_records, putRec]
  · refine ⟨{ generatedMeta pid a now with status := "error", error := some msg },
        ?_, rfl, rfl, ?_⟩
    · simp [buildProjectThread, errorHandler, stGen_records]
    · simp [buildProjectThread, errorHandler, stGen_records, putRec]

/-- Witness for C6 (amended): a failure during scaffolding ends with a
persisted error record carrying the message. -/
theorem c6_error_persisted_w :
    ∃ m : Meta,
      ((buildProjectThread "p1" (analyze_description "calculator app") 0 (some 2)
          "boom" emptySrv).2).getLast? = some m ∧
      m.status = "error" ∧ m.error = some "boom" ∧
      (buildProjectThread "p1" (analyze_description "calculator app") 0 (some 2)
          "boom" emptySrv).1.records "p1" = some m :=
  c6_error_persisted "p1" (analyze_description "calculator app") 0 "boom" emptySrv 2
    (by decide)

theorem stGen_files_apk (pid : String) (a : Analysis) (now : Nat) (st : Srv) :
    (stGen pid a now st).files (apkConvPath pid) = some dummyApkText := by
  simp only [stGen, putRec, stScaff, stInit]
  simp only [scaffoldWrites, applyWrites_append, apkConvPath]
  simp [applyWrites, insertFile]

/-- Claim C5, counterexample: in the state the background task reaches right
after committing status `'generated'` (artifact not yet produced by the
Build Invoker), a download request for `"p1"` does NOT return the not-found
error: it serves the stub artifact `create_dummy_apk` wrote at the
conventional build-output path during scaffolding. -/
theorem c5_cex :
    (stGen "p1" (analyze_description "calculator app") 0 emptySrv).records "p1"
      = some (generatedMeta "p1" (analyze_description "calculator app") 0) ∧
    (generatedMeta "p1" (analyze_description "calculator app") 0).status = "generated" ∧
    downloadApk "p1" (stGen "p1" (analyze_description "calculator app") 0 emptySrv)
      = Except.ok ("rahl_" ++ "p1" ++ ".apk", dummyApkText) := by
  refine ⟨rfl, rfl, ?_⟩
  rw [downloadApk, stGen_files_apk]

/-- Claim C5 (amended): while a record's status is `'generated'` — that is,
in every state between the task's `'generated'` commit and its finalize
step — a download request returns the stub artifact file written by
`create_dummy_apk` at the conventional build-output path, not a
NotFoundError. -/
theorem c5_stub_download (pid : String) (a : Analysis) (now : Nat) (st : Srv) :
    (stGen pid a now st).records pid = some (generatedMeta pid a now) ∧
    (generatedMeta pid a now).status = "generated" ∧
    downloadApk pid (stGen pid a now st)
      = Except.ok ("rahl_" ++ pid ++ ".apk", dummyApkText) := by
  refine ⟨stGen_records pid a now st, rfl, ?_⟩
  rw [downloadApk, stGen_files_apk]

/-- Claim C9: on every exit path of `AndroidAPKBuilder.build_apk` — zero
exit, non-zero exit, missing artifact after success, or a raised
exception — the prior working directory is restored; on a non-zero exit
code, or when no artifact is found after a zero exit, the returned result
is a failure carrying the last 20 retained (stripped) output lines. -/
theorem c9_invoker (project_path bt cwd0 : String) (rc : Int) (lines : List String)
    (findRes : Option (String × Nat)) (m : String) :
    (runOs (apkBuild project_path bt (GradleBehavior.completes rc lines) findRes) cwd0).2
        = cwd0 ∧
    (runOs (apkBuild project_path bt (GradleBehavior.raises m) findRes) cwd0).2 = cwd0 ∧
    (rc ≠ 0 →
      (runOs (apkBuild project_path bt (GradleBehavior.completes rc lines) findRes) cwd0).1
        = Except.ok { success := false,
                      error := some ("Build failed with exit code " ++ toString rc),
                      output := some (tailJoin lines) }) ∧
    (rc = 0 → findRes = none →
      (runOs (apkBuild project_path bt (GradleBehavior.completes rc lines) findRes) cwd0).1
        = Except.ok { success := false, error := some "APK file not found after build",
                      output := some (tailJoin lines) }) ∧
    (runOs (apkBuild project_path bt (GradleBehavior.raises m) findRes) cwd0).1
      = Except.ok { success := false, error := some m } := by
  refine ⟨?_, ?_, ?_, ?_, ?_⟩
  · simp [runOs, apkBuild, osBind, osGetCwd, osChdir, osPure, gradleRun, tryFin]
  · simp [runOs, apkBuild, osBind, osGetCwd, osChdir, osPure, osThrow, gradleRun, tryFin]
  · intro hrc
    simp [runOs, apkBuild, osBind, osGetCwd, osChdir, osPure, gradleRun, tryFin,
          buildReport, hrc]
  · intro hrc hfind
    simp [runOs, apkBuild, osBind, osGetCwd, osChdir, osPure, gradleRun, tryFin,
          buildReport, hrc, hfind]
  · simp [runOs, apkBuild, osBind, osGetCwd, osChdir, osPure, osThrow, gradleRun, tryFin]

/-- Witness for C9: a non-zero Gradle exit restores the cwd and yields the
failure result with the retained tail output. -/
theorem c9_invoker_w :
    (runOs (apkBuild "proj" "debug" (GradleBehavior.completes 1 ["  line  "]) none)
        "/w").2 = "/w" ∧
    (runOs (apkBuild "proj" "debug" (GradleBehavior.completes 1 ["  line  "]) none)
        "/w").1
      = Except.ok { success := false,
                    error := some ("Build failed with exit code " ++ toString (1 : Int)),
                    output := some (tailJoin ["  line  "]) } :=
  ⟨(c9_invoker "proj" "debug" "/w" 1 ["  line  "] none "x").1,
   (c9_invoker "proj" "debug" "/w" 1 ["  line  "] none "x").2.2.1 (by decide)⟩
